import Mathlib

/-
Verification development for the Job-Hunt-Agent repository.

The frontend sources (React components under frontend/src) are embedded as
plain Lean definitions: component state becomes a structure, event handlers
become functions on that state, and JavaScript falsy-or expressions become
explicit Option handling.  The backend relevance pipeline (ranking,
aggregation, minimum-score filter) is not part of the available sources, so
those definitions are modelled from the specification and marked as such in
their doc comments.
-/

/- ===================== Application statuses and badge ===================== -/

/-- Style table from StatusBadge.jsx: maps an application status to the CSS
classes of its badge.  Note the table has no entry for an applied status. -/
def statusStyles : List (String × String) :=
  [("pending", "bg-gray-100 text-gray-700"),
   ("interview", "bg-blue-100 text-blue-700"),
   ("offer", "bg-green-100 text-green-700"),
   ("accepted", "bg-emerald-100 text-emerald-700"),
   ("rejected", "bg-red-100 text-red-700"),
   ("withdrawn", "bg-yellow-100 text-yellow-700")]

/-- Property access statusStyles[status] in StatusBadge.jsx: first matching
key, undefined (none) when the key is absent. -/
def lookupStyle (status : String) : Option String :=
  (statusStyles.find? (fun p => p.1 == status)).map Prod.snd

/-- JavaScript falsy-or on a possibly-undefined string: a || b falls back to b
when a is undefined or the empty string. -/
def jsOrString (a : Option String) (b : String) : String :=
  match a with
  | none => b
  | some s => if s = "" then b else s

/-- StatusBadge.jsx style selection: statusStyles[status] || statusStyles.pending. -/
def styleFor (status : String) : String :=
  jsOrString (lookupStyle status) ((lookupStyle ("pending")).getD "")

/-- Status filter tabs of ApplicationsPage.jsx (includes the pseudo-status all). -/
def STATUSES : List String :=
  ["all", "pending", "interview", "offer", "accepted", "rejected", "withdrawn"]

/-- Statuses offered by the status-update select of ApplicationsPage.jsx. -/
def VALID_STATUSES : List String :=
  ["pending", "interview", "offer", "accepted", "rejected", "withdrawn"]

/- ===================== Search form (SearchForm.jsx) ===================== -/

/-- JavaScript String.prototype.trim: strips leading and trailing whitespace. -/
def jsTrim (s : String) : String :=
  String.mk (((s.data.dropWhile Char.isWhitespace).reverse.dropWhile
    Char.isWhitespace).reverse)

/-- JavaScript expression s || null on a string: null for the empty string. -/
def jsOrNull (s : String) : Option String :=
  if s = "" then none else some s

/-- State of SearchForm.jsx, one field per useState hook. -/
structure SearchFormState where
  query : String
  location : String
  sources : List String
  minScore : ℚ
  experienceLevel : String
  employmentType : String
  datePosted : String
  remoteOnly : Bool

/-- Initial SearchForm state: the useState defaults, in particular the
minimum-score slider starts at 0.3 and the date filter at the value all. -/
def initialSearchForm : SearchFormState :=
  { query := "", location := "", sources := ["jsearch"], minScore := 3 / 10,
    experienceLevel := "", employmentType := "", datePosted := "all",
    remoteOnly := false }

/-- Payload passed to onSearch by handleSubmit in SearchForm.jsx. -/
structure SearchPayload where
  query : String
  location : Option String
  sources : List String
  min_score : ℚ
  experience_level : Option String
  employment_type : Option String
  date_posted : Option String
  remote_only : Bool
deriving DecidableEq

/-- The handleSubmit handler of SearchForm.jsx: returns none when the guard
fires (whitespace-only query, so onSearch is not invoked), otherwise the
payload handed to onSearch. -/
def handleSubmit (st : SearchFormState) : Option SearchPayload :=
  if jsTrim st.query = "" then none
  else some
    { query := jsTrim st.query
      location := jsOrNull (jsTrim st.location)
      sources := st.sources
      min_score := st.minScore
      experience_level := jsOrNull st.experienceLevel
      employment_type := jsOrNull st.employmentType
      date_posted := if st.datePosted ≠ "all" then some st.datePosted else none
      remote_only := st.remoteOnly }

/-- Value of the Any Time option of the Date Posted select in SearchForm.jsx. -/
def anyTimeValue : String := "all"

/-- Values of the Date Posted select of SearchForm.jsx. -/
def datePostedValues : List String := ["all", "today", "3days", "week", "month"]

/-- A search form state with a whitespace-only query. -/
def blankQueryForm : SearchFormState :=
  { query := "   ", location := " sf ", sources := ["jsearch"], minScore := 0,
    experienceLevel := "", employmentType := "", datePosted := "week",
    remoteOnly := false }

/-- A search form state with a padded query, blank location and Any Time. -/
def demoSearchForm : SearchFormState :=
  { query := " dev ", location := "   ", sources := ["jsearch"], minScore := 0,
    experienceLevel := "", employmentType := "", datePosted := "all",
    remoteOnly := false }

/-- The payload handleSubmit produces from demoSearchForm. -/
def demoSearchPayload : SearchPayload :=
  { query := "dev", location := none, sources := ["jsearch"], min_score := 0,
    experience_level := none, employment_type := none, date_posted := none,
    remote_only := false }

/- ============== Search results page (JobSearchPage.jsx, JobCard) ============== -/

/-- RelevanceScore as consumed by the frontend (MatchScoreBar.jsx and
JobCard.jsx): overall score plus optional per-dimension scores and the
matching and missing skill lists. -/
structure RelevanceScore where
  overall_score : ℚ
  skills_score : Option ℚ
  experience_score : Option ℚ
  location_score : Option ℚ
  salary_score : Option ℚ
  matching_skills : List String
  missing_skills : List String

/-- Job fields read by the search results rendering. -/
structure Job where
  job_id : String
  title : String
  company : String

/-- JobMatch pairs one job with its relevance score. -/
structure JobMatch where
  job : Job
  score : RelevanceScore

/-- Modelled from the spec: the record returned at the pipeline boundary,
with exactly the fields matches, total_fetched and total_matched (the
backend pipeline itself is not among the available sources). -/
structure SearchResult where
  «matches» : List JobMatch
  total_fetched : ℤ
  total_matched : ℤ

/-- Data of one rendered JobCard: the key is the job id, and the card shows
title, company and the overall score. -/
structure RenderedCard where
  key : String
  title : String
  company : String
  overall : ℚ

/-- Rendering of one match by JobCard.jsx. -/
def renderJobCard (m : JobMatch) : RenderedCard :=
  { key := m.job.job_id, title := m.job.title, company := m.job.company,
    overall := m.score.overall_score }

/-- Data of the results block of JobSearchPage.jsx. -/
structure RenderedSearch where
  foundCount : ℤ
  matchedCount : ℤ
  cards : List RenderedCard
  showEmptyMessage : Bool

/-- Results rendering of JobSearchPage.jsx lines 61 to 79: the two counters
come from total_fetched and total_matched, and the cards are the matches in
the order received. -/
def renderSearchResults (r : SearchResult) : RenderedSearch :=
  { foundCount := r.total_fetched
    matchedCount := r.total_matched
    cards := r.«matches».map renderJobCard
    showEmptyMessage := r.«matches».length == 0 }

/-- A sample job for witnesses. -/
def demoJob : Job := { job_id := "j1", title := "Engineer", company := "Acme" }

/-- A sample relevance score for witnesses. -/
def demoScore : RelevanceScore :=
  { overall_score := 1 / 2, skills_score := some 1, experience_score := none,
    location_score := none, salary_score := none,
    matching_skills := ["python"], missing_skills := [] }

/-- A sample pipeline result for witnesses. -/
def demoSearchResult : SearchResult :=
  { «matches» := [{ job := demoJob, score := demoScore }], total_fetched := 5,
    total_matched := 1 }

/- ===================== Ranker (modelled from the spec) ===================== -/

/-- Modelled from the spec: a job as seen by the ranker, carrying its id, its
optional posting timestamp and the overall relevance score attached by the
aggregator (the ranker is not among the available sources).  Ids are
modelled as naturals and timestamps as naturals, newer meaning larger. -/
structure ScoredJob where
  id : Nat
  posted_at : Option Nat
  overall_score : ℚ
deriving DecidableEq

/-- Sort key for the optional posting timestamp: an absent timestamp sorts as
the oldest possible value, below every present timestamp. -/
def postedKey (t : Option Nat) : Nat :=
  match t with
  | none => 0
  | some n => n + 1

/-- Modelled from the spec: the ranking comparator, overall score descending,
ties by posting time descending (newer first), final ties by id ascending. -/
def rankLE (a b : ScoredJob) : Bool :=
  decide (b.overall_score < a.overall_score) ||
    (decide (a.overall_score = b.overall_score) &&
      (decide (postedKey b.posted_at < postedKey a.posted_at) ||
        (decide (postedKey a.posted_at = postedKey b.posted_at) &&
          decide (a.id ≤ b.id))))

/-- The ranking comparator as a relation, for readable statements. -/
def rankRel (a b : ScoredJob) : Prop :=
  b.overall_score < a.overall_score ∨
    (a.overall_score = b.overall_score ∧
      (postedKey b.posted_at < postedKey a.posted_at ∨
        (postedKey a.posted_at = postedKey b.posted_at ∧ a.id ≤ b.id)))

/-- Modelled from the spec: the ranker sorts the surviving scored jobs with
the ranking comparator and truncates to the requested maximum. -/
def rankJobs (jobs : List ScoredJob) (max_results : Nat) : List ScoredJob :=
  (jobs.mergeSort rankLE).take max_results

/-- Sample scored jobs: two tied on score and timestamp, one higher scored. -/
def demoScoredJobs : List ScoredJob :=
  [⟨2, some 5, 1 / 2⟩, ⟨1, some 5, 1 / 2⟩, ⟨3, none, 3 / 4⟩]

/- ================= Hybrid aggregation (modelled from the spec) ================= -/

/-- Modelled from the spec: the weighted sum of the present scores divided by
the sum of the weights of the present scores; a pair whose score is absent
contributes to neither sum. -/
def normalizedWeightedScore (xs : List (ℚ × Option ℚ)) : ℚ :=
  let ds := xs.filterMap (fun p => p.2.map (fun s => (p.1, s)))
  ((ds.map (fun p => p.1 * p.2)).sum) / ((ds.map (fun p => p.1)).sum)

/-- Modelled from the spec: the five dimension scores of a RelevanceScore,
each either a value in the unit interval or undefined. -/
structure DimScores where
  skills : Option ℚ
  experience : Option ℚ
  location : Option ℚ
  salary : Option ℚ
  level : Option ℚ

/-- Modelled from the spec: the caller-supplied non-negative weight mapping,
one weight per dimension name. -/
structure DimWeights where
  skills : ℚ
  experience : ℚ
  location : ℚ
  salary : ℚ
  level : ℚ

/-- The five weight and score pairs, in dimension order. -/
def dimensionPairs (w : DimWeights) (s : DimScores) : List (ℚ × Option ℚ) :=
  [(w.skills, s.skills), (w.experience, s.experience),
   (w.location, s.location), (w.salary, s.salary), (w.level, s.level)]

/-- The computable dimensions: weight and score pairs whose score is defined. -/
def computableDimensions (w : DimWeights) (s : DimScores) : List (ℚ × ℚ) :=
  (dimensionPairs w s).filterMap (fun p => p.2.map (fun x => (p.1, x)))

/-- Modelled from the spec: the aggregated overall score. -/
def overallScore (w : DimWeights) (s : DimScores) : ℚ :=
  normalizedWeightedScore (dimensionPairs w s)

/-- Sample weights for witnesses. -/
def demoWeights : DimWeights :=
  { skills := 1, experience := 2, location := 0, salary := 1, level := 1 }

/-- Sample dimension scores for witnesses: salary and level are undefined. -/
def demoDimScores : DimScores :=
  { skills := some (1 / 2), experience := some 1, location := some 0,
    salary := none, level := none }

/- =============== Minimum-score filter (modelled from the spec) =============== -/

/-- Modelled from the spec: the minimum-score filter keeps exactly the jobs
whose overall score reaches the threshold (the filter implementation is not
among the available sources). -/
def minScoreFilter (threshold : ℚ) (jobs : List ScoredJob) : List ScoredJob :=
  jobs.filter (fun j => decide (threshold ≤ j.overall_score))

/-- A scored job below the default slider threshold of the search form. -/
def lowScoredJob : ScoredJob := ⟨1, none, 1 / 5⟩

/- ===================== Profile editor (ProfilePage.jsx) ===================== -/

/-- The fields of the ProfilePage form state that the claims are about.  The
two salary fields are numeric inputs whose value is a string; an empty input
is modelled as none and an entered number as some value, matching the
JavaScript truthiness test applied on save. -/
structure ProfileForm where
  preferred_salary_min : Option ℚ
  preferred_salary_max : Option ℚ
  remote_preference : String
  preferred_job_levels : List String

/-- Initial ProfilePage form state (the useState defaults). -/
def initialProfileForm : ProfileForm :=
  { preferred_salary_min := none, preferred_salary_max := none,
    remote_preference := "flexible", preferred_job_levels := [] }

/-- The corresponding fields of the payload submitted by handleSave. -/
structure ProfilePayload where
  preferred_salary_min : Option ℚ
  preferred_salary_max : Option ℚ
  remote_preference : String
  preferred_job_levels : List String

/-- Payload construction in handleSave of ProfilePage.jsx: each salary field
is form.value converted with the expression value ? Number(value) : null, so
an empty input becomes null and an entered number is forwarded unchanged; no
comparison between the two bounds is performed anywhere in the handler. -/
def buildProfilePayload (f : ProfileForm) : ProfilePayload :=
  { preferred_salary_min :=
      match f.preferred_salary_min with
      | none => none
      | some x => some x
    preferred_salary_max :=
      match f.preferred_salary_max with
      | none => none
      | some x => some x
    remote_preference := f.remote_preference
    preferred_job_levels := f.preferred_job_levels }

/-- The salary invariant of the spec: minimum at most maximum when both are
present. -/
def salaryInvariant (p : ProfilePayload) : Prop :=
  ∀ a b, p.preferred_salary_min = some a → p.preferred_salary_max = some b →
    a ≤ b

/-- A form whose entered salary bounds are inverted. -/
def badSalaryForm : ProfileForm :=
  { preferred_salary_min := some 200000, preferred_salary_max := some 100000,
    remote_preference := "flexible", preferred_job_levels := [] }

/-- A form whose entered salary bounds are consistent. -/
def goodSalaryForm : ProfileForm :=
  { preferred_salary_min := some 50000, preferred_salary_max := some 100000,
    remote_preference := "flexible", preferred_job_levels := [] }

/-- Values of the Remote Preference select of ProfilePage.jsx. -/
def remotePreferenceValues : List String :=
  ["required", "preferred", "flexible", "not_interested"]

/-- Remote preference handling of populateForm in ProfilePage.jsx:
data.remote_preference || flexible. -/
def populateRemotePreference (v : Option String) : String :=
  jsOrString v ("flexible")

/-- The six job levels offered as checkboxes by ProfilePage.jsx. -/
def jobLevelValues : List String :=
  ["entry", "junior", "mid", "senior", "lead", "executive"]

/-- A user interaction with the job level checkboxes. -/
inductive LevelOp where
  | check (level : String)
  | uncheck (level : String)

/-- The checkbox onChange handler for preferred job levels in
ProfilePage.jsx: a check event appends the level to the list, an uncheck
event removes every occurrence of it. -/
def applyLevelOp (s : List String) : LevelOp → List String
  | LevelOp.check l => s ++ [l]
  | LevelOp.uncheck l => s.filter (fun x => x != l)

/-- A sequence of checkbox interactions applied in order. -/
def applyLevelOps (s : List String) (ops : List LevelOp) : List String :=
  ops.foldl applyLevelOp s

/-- An interaction the checkbox row can actually produce in a given state:
only the six listed levels have checkboxes, and a check event fires only for
a level that is currently unchecked. -/
def validLevelOp (s : List String) : LevelOp → Bool
  | LevelOp.check l => jobLevelValues.contains l && !(s.contains l)
  | LevelOp.uncheck l => jobLevelValues.contains l

/-- Validity of a sequence of interactions, each judged in the state the
previous ones produced. -/
def validLevelOps (s : List String) : List LevelOp → Bool
  | [] => true
  | op :: rest => validLevelOp s op && validLevelOps (applyLevelOp s op) rest

/-- The invariant of the claim: the level list is duplicate-free and every
entry is one of the six offered levels. -/
def levelSetInvariant (s : List String) : Prop :=
  s.Nodup ∧ ∀ x ∈ s, x ∈ jobLevelValues

/-- A sample interaction sequence for witnesses. -/
def demoLevelOps : List LevelOp :=
  [LevelOp.check ("mid"), LevelOp.uncheck ("entry"), LevelOp.check ("senior")]

/- ===================== Theorems ===================== -/

/-- C2 counterexample: the status applied is not offered by the status-update
interface and has no badge style entry, so the claimed seven-status machine
does not match the code. -/
theorem c2_applied_missing :
    ¬ ("applied" ∈ VALID_STATUSES) ∧ lookupStyle ("applied") = none := by
  decide

/-- C2 amended: the status-update interface offers exactly the six statuses
pending, interview, offer, accepted, rejected, withdrawn, each exactly once;
the badge style table covers exactly the same six statuses in the same order. -/
theorem c2_status_set :
    VALID_STATUSES
        = ["pending", "interview", "offer", "accepted", "rejected", "withdrawn"] ∧
    VALID_STATUSES.Nodup ∧
    statusStyles.map Prod.fst = VALID_STATUSES ∧
    VALID_STATUSES.all (fun s => (lookupStyle s).isSome) = true := by
  decide

/-- C10: for every status string the badge style selection yields a style from
the table (so rendering is total), and whenever the status has no entry in the
style table the selection falls back to the pending style. -/
theorem c10_badge_total (status : String) :
    styleFor status ∈ statusStyles.map Prod.snd ∧
    (lookupStyle status = none → styleFor status = styleFor ("pending")) := by
  have hdef : (lookupStyle ("pending")).getD "" ∈ statusStyles.map Prod.snd := by
    decide
  constructor
  · unfold styleFor
    cases h : lookupStyle status with
    | none =>
      show jsOrString none ((lookupStyle ("pending")).getD "") ∈ _
      simpa [jsOrString] using hdef
    | some st =>
      have hmem : st ∈ statusStyles.map Prod.snd := by
        unfold lookupStyle at h
        rcases Option.map_eq_some'.mp h with ⟨p, hp, hsnd⟩
        exact hsnd ▸ List.mem_map_of_mem Prod.snd (List.mem_of_find?_eq_some hp)
      show jsOrString (some st) ((lookupStyle ("pending")).getD "") ∈ _
      by_cases hs : st = ""
      · simpa [jsOrString, hs] using hdef
      · simpa [jsOrString, hs] using hmem
  · intro h
    unfold styleFor
    rw [h]
    decide

/-- C10 witness: the badge for the unknown status applied renders a table
style and falls back to the pending style. -/
theorem c10_badge_total_witness :
    styleFor ("applied") ∈ statusStyles.map Prod.snd ∧
    styleFor ("applied") = styleFor ("pending") :=
  ⟨(c10_badge_total ("applied")).1, (c10_badge_total ("applied")).2 (by decide)⟩

/-- C1: the pipeline result record consists of exactly the fields matches,
total_fetched and total_matched (two results agreeing on these three fields
are equal), and the search page reads exactly these three fields: the two
counters shown are total_fetched and total_matched, and the rendered cards
are the matches in the order received, keyed by job id. -/
theorem c1_search_result_shape :
    (∀ r r2 : SearchResult, r.«matches» = r2.«matches» →
      r.total_fetched = r2.total_fetched →
      r.total_matched = r2.total_matched → r = r2) ∧
    (∀ r : SearchResult,
      (renderSearchResults r).foundCount = r.total_fetched ∧
      (renderSearchResults r).matchedCount = r.total_matched ∧
      (renderSearchResults r).cards.map RenderedCard.key
          = r.«matches».map (fun m => m.job.job_id) ∧
      (renderSearchResults r).cards = r.«matches».map renderJobCard) := by
  constructor
  · intro r r2 h1 h2 h3
    cases r
    cases r2
    simp_all
  · intro r
    refine ⟨rfl, rfl, ?_, rfl⟩
    simp [renderSearchResults, renderJobCard, List.map_map, Function.comp]

/-- C1 witness: the shape and rendering facts instantiated at a concrete
pipeline result with one match. -/
theorem c1_search_result_shape_witness :
    demoSearchResult = demoSearchResult ∧
    (renderSearchResults demoSearchResult).foundCount
        = demoSearchResult.total_fetched ∧
    (renderSearchResults demoSearchResult).cards.map RenderedCard.key
        = demoSearchResult.«matches».map (fun m => m.job.job_id) :=
  ⟨c1_search_result_shape.1 demoSearchResult demoSearchResult rfl rfl rfl,
   (c1_search_result_shape.2 demoSearchResult).1,
   (c1_search_result_shape.2 demoSearchResult).2.2.1⟩

/-- C9: whenever handleSubmit produces a payload, its query is the trimmed
query and non-empty, its location is either null or the non-empty trimmed
location, and its date_posted is null exactly when the Any Time option is
selected; a whitespace-only query produces no payload at all. -/
theorem c9_submit_payload (st : SearchFormState) :
    (jsTrim st.query = "" → handleSubmit st = none) ∧
    (∀ p, handleSubmit st = some p →
      p.query = jsTrim st.query ∧ p.query ≠ "" ∧
      (p.location = none ∨
        (p.location = some (jsTrim st.location) ∧ jsTrim st.location ≠ "")) ∧
      (p.date_posted = none ↔ st.datePosted = anyTimeValue)) := by
  constructor
  · intro h
    simp [handleSubmit, h]
  · intro p hp
    by_cases h : jsTrim st.query = ""
    · simp [handleSubmit, h] at hp
    · simp only [handleSubmit, h, if_neg, if_false, Option.some.injEq] at hp
      subst hp
      refine ⟨rfl, h, ?_, ?_⟩
      · by_cases hl : jsTrim st.location = ""
        · exact Or.inl (by simp [jsOrNull, hl])
        · exact Or.inr ⟨by simp [jsOrNull, hl], hl⟩
      · by_cases hd : st.datePosted = "all" <;>
          simp [hd, anyTimeValue]

/-- C9 witness: a whitespace-only query invokes nothing, and the payload of a
padded query with blank location and Any Time selected has the trimmed
non-empty query, a null location and a null date_posted. -/
theorem c9_submit_payload_witness :
    handleSubmit blankQueryForm = none ∧
    (demoSearchPayload.query = jsTrim demoSearchForm.query ∧
      demoSearchPayload.query ≠ "" ∧
      (demoSearchPayload.location = none ∨
        (demoSearchPayload.location = some (jsTrim demoSearchForm.location) ∧
          jsTrim demoSearchForm.location ≠ "")) ∧
      (demoSearchPayload.date_posted = none ↔
        demoSearchForm.datePosted = anyTimeValue)) :=
  ⟨(c9_submit_payload blankQueryForm).1 (by decide),
   (c9_submit_payload demoSearchForm).2 demoSearchPayload (by decide)⟩

/-- The ranking comparator agrees with its relational form. -/
theorem rankLE_iff (a b : ScoredJob) : rankLE a b = true ↔ rankRel a b := by
  simp [rankLE, rankRel]

/-- The ranking comparator is total. -/
theorem rankLE_total (a b : ScoredJob) : (rankLE a b || rankLE b a) = true := by
  simp only [rankLE, Bool.or_eq_true, Bool.and_eq_true, decide_eq_true_eq]
  rcases lt_trichotomy a.overall_score b.overall_score with h | h | h
  · exact Or.inr (Or.inl h)
  · rcases Nat.lt_trichotomy (postedKey a.posted_at) (postedKey b.posted_at)
      with hp | hp | hp
    · exact Or.inr (Or.inr ⟨h.symm, Or.inl hp⟩)
    · rcases Nat.le_total a.id b.id with hid | hid
      · exact Or.inl (Or.inr ⟨h, Or.inr ⟨hp, hid⟩⟩)
      · exact Or.inr (Or.inr ⟨h.symm, Or.inr ⟨hp.symm, hid⟩⟩)
    · exact Or.inl (Or.inr ⟨h, Or.inl hp⟩)
  · exact Or.inl (Or.inl h)

/-- The ranking comparator is transitive. -/
theorem rankLE_trans (a b c : ScoredJob) :
    rankLE a b = true → rankLE b c = true → rankLE a c = true := by
  simp only [rankLE, Bool.or_eq_true, Bool.and_eq_true, decide_eq_true_eq]
  intro hab hbc
  rcases hab with hab | ⟨hse, hab⟩ <;> rcases hbc with hbc | ⟨hse2, hbc⟩
  · exact Or.inl (hbc.trans hab)
  · exact Or.inl (by rw [← hse2]; exact hab)
  · exact Or.inl (by rw [hse]; exact hbc)
  · refine Or.inr ⟨hse.trans hse2, ?_⟩
    rcases hab with hp | ⟨hpe, hid⟩ <;> rcases hbc with hp2 | ⟨hpe2, hid2⟩
    · exact Or.inl (hp2.trans hp)
    · exact Or.inl (by rw [← hpe2]; exact hp)
    · exact Or.inl (by rw [hpe]; exact hp2)
    · exact Or.inr ⟨hpe.trans hpe2, hid.trans hid2⟩

/-- C3: the ranking output is sorted by overall score descending with ties by
posting time descending and final ties by id ascending; in particular any
two output jobs with equal score and equal posting key appear in ascending
id order; the output has exactly min max_results (length jobs) entries and
is drawn from the input jobs. -/
theorem c3_ranking (jobs : List ScoredJob) (max_results : Nat) :
    List.Pairwise rankRel (rankJobs jobs max_results) ∧
    List.Pairwise
      (fun a b => a.overall_score = b.overall_score →
        postedKey a.posted_at = postedKey b.posted_at → a.id ≤ b.id)
      (rankJobs jobs max_results) ∧
    (rankJobs jobs max_results).length = min max_results jobs.length ∧
    (rankJobs jobs max_results).Subperm jobs := by
  have hsorted : List.Pairwise (fun a b => rankLE a b = true)
      (jobs.mergeSort rankLE) :=
    List.sorted_mergeSort rankLE_trans rankLE_total jobs
  have htake : List.Pairwise (fun a b => rankLE a b = true)
      (rankJobs jobs max_results) :=
    List.Pairwise.sublist (List.take_sublist _ _) hsorted
  have hrel : List.Pairwise rankRel (rankJobs jobs max_results) :=
    htake.imp (fun h => (rankLE_iff _ _).mp h)
  refine ⟨hrel, ?_, ?_, ?_⟩
  · refine hrel.imp ?_
    intro a b hab heq hpk
    rcases hab with h | ⟨_, h | ⟨_, h⟩⟩
    · exact absurd h (by rw [heq]; exact lt_irrefl _)
    · exact absurd h (by rw [hpk]; exact lt_irrefl _)
    · exact h
  · have hlen : (jobs.mergeSort rankLE).length = jobs.length :=
      (List.mergeSort_perm jobs rankLE).length_eq
    simp [rankJobs, hlen]
  · exact ((List.take_sublist _ _).subperm).trans
      (List.mergeSort_perm jobs rankLE).subperm

/-- C3 witness: the ranking facts at a concrete job list containing a tie on
score and posting time, together with the concretely evaluated output, which
places the higher score first and breaks the full tie by ascending id. -/
theorem c3_ranking_witness :
    (rankJobs demoScoredJobs 3).length = min 3 demoScoredJobs.length ∧
    (rankJobs demoScoredJobs 3).Subperm demoScoredJobs ∧
    rankJobs demoScoredJobs 3
        = [⟨3, none, 3 / 4⟩, ⟨1, some 5, 1 / 2⟩, ⟨2, some 5, 1 / 2⟩] :=
  ⟨(c3_ranking demoScoredJobs 3).2.2.1,
   (c3_ranking demoScoredJobs 3).2.2.2,
   by simp [rankJobs, demoScoredJobs, rankLE, List.mergeSort, List.merge]
      norm_num⟩

/-- The normalized weighted score lies in the unit interval whenever all
weights are non-negative and all present scores lie in the unit interval. -/
theorem normalizedWeightedScore_bounds (xs : List (ℚ × Option ℚ))
    (hw : ∀ p ∈ xs, 0 ≤ p.1)
    (hs : ∀ p ∈ xs, ∀ x, p.2 = some x → 0 ≤ x ∧ x ≤ 1) :
    0 ≤ normalizedWeightedScore xs ∧ normalizedWeightedScore xs ≤ 1 := by
  have hmem : ∀ q ∈ xs.filterMap (fun p => p.2.map (fun s => (p.1, s))),
      0 ≤ q.1 ∧ 0 ≤ q.2 ∧ q.2 ≤ 1 := by
    intro q hq
    rcases List.mem_filterMap.mp hq with ⟨p, hp, hfp⟩
    rcases Option.map_eq_some'.mp hfp with ⟨x, hx, hqx⟩
    rcases hs p hp x hx with ⟨hx0, hx1⟩
    refine ⟨?_, ?_, ?_⟩
    · rw [← hqx]
      exact hw p hp
    · rw [← hqx]
      exact hx0
    · rw [← hqx]
      exact hx1
  have hnum0 : 0 ≤ ((xs.filterMap (fun p => p.2.map (fun s => (p.1, s)))).map
      (fun p => p.1 * p.2)).sum := by
    apply List.sum_nonneg
    intro y hy
    rcases List.mem_map.mp hy with ⟨q, hq, rfl⟩
    exact mul_nonneg (hmem q hq).1 (hmem q hq).2.1
  have hden0 : 0 ≤ ((xs.filterMap (fun p => p.2.map (fun s => (p.1, s)))).map
      (fun p => p.1)).sum := by
    apply List.sum_nonneg
    intro y hy
    rcases List.mem_map.mp hy with ⟨q, hq, rfl⟩
    exact (hmem q hq).1
  have hle : ((xs.filterMap (fun p => p.2.map (fun s => (p.1, s)))).map
      (fun p => p.1 * p.2)).sum ≤
        ((xs.filterMap (fun p => p.2.map (fun s => (p.1, s)))).map
          (fun p => p.1)).sum := by
    apply List.sum_le_sum
    intro q hq
    exact mul_le_of_le_one_right (hmem q hq).1 (hmem q hq).2.2
  rcases eq_or_lt_of_le hden0 with hd | hd
  · have hn0 : ((xs.filterMap (fun p => p.2.map (fun s => (p.1, s)))).map
        (fun p => p.1 * p.2)).sum = 0 :=
      le_antisymm (hd ▸ hle) hnum0
    simp [normalizedWeightedScore, hn0, ← hd]
  · constructor
    · exact div_nonneg hnum0 (le_of_lt hd)
    · exact (div_le_one hd).mpr hle

/-- Removing a pair whose score is absent changes neither the numerator nor
the denominator of the normalized weighted score. -/
theorem normalizedWeightedScore_append_none (xs ys : List (ℚ × Option ℚ))
    (w : ℚ) :
    normalizedWeightedScore (xs ++ (w, none) :: ys)
      = normalizedWeightedScore (xs ++ ys) := by
  simp [normalizedWeightedScore, List.filterMap_append]

/-- C4: with non-negative weights and all defined dimension scores in the
unit interval, the aggregated overall score lies in the unit interval; it is
the weighted sum of the computable dimension scores divided by the sum of
their weights; and the weight of an undefined dimension is irrelevant, so
such a dimension is excluded from both numerator and denominator rather than
counted as zero. -/
theorem c4_overall_score (w : DimWeights) (s : DimScores)
    (hw : ∀ p ∈ dimensionPairs w s, 0 ≤ p.1)
    (hs : ∀ p ∈ dimensionPairs w s, ∀ x, p.2 = some x → 0 ≤ x ∧ x ≤ 1) :
    (0 ≤ overallScore w s ∧ overallScore w s ≤ 1) ∧
    overallScore w s =
      ((computableDimensions w s).map (fun p => p.1 * p.2)).sum /
        ((computableDimensions w s).map (fun p => p.1)).sum ∧
    (s.skills = none → ∀ x : ℚ,
      overallScore { w with skills := x } s = overallScore w s) ∧
    (s.experience = none → ∀ x : ℚ,
      overallScore { w with experience := x } s = overallScore w s) ∧
    (s.location = none → ∀ x : ℚ,
      overallScore { w with location := x } s = overallScore w s) ∧
    (s.salary = none → ∀ x : ℚ,
      overallScore { w with salary := x } s = overallScore w s) ∧
    (s.level = none → ∀ x : ℚ,
      overallScore { w with level := x } s = overallScore w s) := by
  refine ⟨normalizedWeightedScore_bounds _ hw hs, rfl, ?_, ?_, ?_, ?_, ?_⟩ <;>
    (intro h x
     simp [overallScore, dimensionPairs, normalizedWeightedScore, h,
       List.filterMap_cons])

/-- C4 witness: the aggregation facts at concrete weights and scores where
salary and level are undefined; the concrete overall score is 5/6 and
changing the weight of the undefined salary dimension leaves it unchanged. -/
theorem c4_overall_score_witness :
    (0 ≤ overallScore demoWeights demoDimScores ∧
      overallScore demoWeights demoDimScores ≤ 1) ∧
    overallScore { demoWeights with salary := 7 } demoDimScores
        = overallScore demoWeights demoDimScores ∧
    overallScore demoWeights demoDimScores = 5 / 6 := by
  have hw : ∀ p ∈ dimensionPairs demoWeights demoDimScores, 0 ≤ p.1 := by
    intro p hp
    simp [dimensionPairs, demoWeights, demoDimScores] at hp
    rcases hp with rfl | rfl | rfl | rfl | rfl <;> norm_num
  have hs : ∀ p ∈ dimensionPairs demoWeights demoDimScores, ∀ x,
      p.2 = some x → 0 ≤ x ∧ x ≤ 1 := by
    intro p hp x hx
    simp [dimensionPairs, demoWeights, demoDimScores] at hp
    rcases hp with rfl | rfl | rfl | rfl | rfl <;>
      (simp at hx
       try subst hx) <;> norm_num
  refine ⟨(c4_overall_score demoWeights demoDimScores hw hs).1,
    (c4_overall_score demoWeights demoDimScores hw hs).2.2.2.2.2.1 rfl 7,
    ?_⟩
  simp [overallScore, dimensionPairs, demoWeights, demoDimScores,
    normalizedWeightedScore]
  norm_num

/-- C5 counterexample: the minimum-score threshold the search form submits
when nothing is explicitly set is 0.3, not 0.0, and with that default a job
scoring 0.2 is excluded by the minimum-score filter. -/
theorem c5_default_threshold_counterexample :
    initialSearchForm.minScore = 3 / 10 ∧
    initialSearchForm.minScore ≠ 0 ∧
    minScoreFilter initialSearchForm.minScore [lowScoredJob] = [] := by
  refine ⟨rfl, by norm_num [initialSearchForm], ?_⟩
  have h : ¬ ((3 : ℚ) / 10 ≤ lowScoredJob.overall_score) := by
    norm_num [lowScoredJob]
  simp [minScoreFilter, initialSearchForm, List.filter_cons, h]

/-- C5 amended: the minimum-score filter itself is a no-op at threshold 0.0,
but every submitted search carries the form threshold unchanged and the form
threshold defaults to 0.3, so by default jobs scoring below 0.3 are
excluded. -/
theorem c5_min_score_default (jobs : List ScoredJob)
    (h0 : ∀ j ∈ jobs, 0 ≤ j.overall_score) :
    minScoreFilter 0 jobs = jobs ∧
    (∀ st p, handleSubmit st = some p → p.min_score = st.minScore) ∧
    initialSearchForm.minScore = 3 / 10 := by
  refine ⟨?_, ?_, rfl⟩
  · apply List.filter_eq_self.mpr
    intro j hj
    simpa using h0 j hj
  · intro st p hp
    by_cases h : jsTrim st.query = ""
    · simp [handleSubmit, h] at hp
    · simp only [handleSubmit, h, if_neg, if_false, Option.some.injEq] at hp
      subst hp
      rfl

/-- C5 witness: the filter at threshold 0 keeps a concrete job, and a
concrete submitted payload carries the form threshold. -/
theorem c5_min_score_default_witness :
    minScoreFilter 0 [lowScoredJob] = [lowScoredJob] ∧
    demoSearchPayload.min_score = demoSearchForm.minScore :=
  ⟨(c5_min_score_default [lowScoredJob] (by
      intro j hj
      simp at hj
      subst hj
      norm_num [lowScoredJob])).1,
   (c5_min_score_default [] (by intro j hj; simp at hj)).2.1
     demoSearchForm demoSearchPayload (by decide)⟩

/-- C6 counterexample: saving a profile whose entered minimum salary exceeds
the entered maximum produces a payload that violates the salary invariant:
nothing in the save path enforces the comparison. -/
theorem c6_salary_counterexample :
    (buildProfilePayload badSalaryForm).preferred_salary_min = some 200000 ∧
    (buildProfilePayload badSalaryForm).preferred_salary_max = some 100000 ∧
    ¬ salaryInvariant (buildProfilePayload badSalaryForm) := by
  refine ⟨rfl, rfl, ?_⟩
  intro h
  have h2 := h 200000 100000 rfl rfl
  norm_num at h2

/-- C6 amended: the save path forwards both salary bounds exactly as entered
(empty input becoming null) with no validation, so the stored payload
satisfies the invariant exactly when the entered values already do. -/
theorem c6_salary_passthrough (f : ProfileForm) :
    (buildProfilePayload f).preferred_salary_min = f.preferred_salary_min ∧
    (buildProfilePayload f).preferred_salary_max = f.preferred_salary_max ∧
    ((∀ a b, f.preferred_salary_min = some a →
        f.preferred_salary_max = some b → a ≤ b) →
      salaryInvariant (buildProfilePayload f)) := by
  have h1 : (buildProfilePayload f).preferred_salary_min
      = f.preferred_salary_min := by
    cases hm : f.preferred_salary_min <;> simp [buildProfilePayload, hm]
  have h2 : (buildProfilePayload f).preferred_salary_max
      = f.preferred_salary_max := by
    cases hm : f.preferred_salary_max <;> simp [buildProfilePayload, hm]
  refine ⟨h1, h2, ?_⟩
  intro hf a b ha hb
  exact hf a b (h1.symm.trans ha) (h2.symm.trans hb)

/-- C6 witness: the passthrough facts at a concrete consistent form, whose
payload then satisfies the salary invariant. -/
theorem c6_salary_passthrough_witness :
    (buildProfilePayload goodSalaryForm).preferred_salary_min
        = goodSalaryForm.preferred_salary_min ∧
    salaryInvariant (buildProfilePayload goodSalaryForm) :=
  ⟨(c6_salary_passthrough goodSalaryForm).1,
   (c6_salary_passthrough goodSalaryForm).2.2 (by
      intro a b ha hb
      simp only [goodSalaryForm, Option.some.injEq] at ha hb
      subst ha
      subst hb
      norm_num)⟩

/-- C7: the Remote Preference select offers exactly the four values required,
preferred, flexible, not_interested; the populate step substitutes flexible
when the loaded profile has no value, the initial form value is flexible,
and populating from any absent or offered value yields an offered value. -/
theorem c7_remote_preference (v : Option String)
    (hv : ∀ s, v = some s → s ∈ remotePreferenceValues) :
    remotePreferenceValues
        = ["required", "preferred", "flexible", "not_interested"] ∧
    populateRemotePreference none = "flexible" ∧
    initialProfileForm.remote_preference = "flexible" ∧
    populateRemotePreference v ∈ remotePreferenceValues := by
  refine ⟨rfl, rfl, rfl, ?_⟩
  cases v with
  | none => decide
  | some s =>
    have hs := hv s rfl
    by_cases h : s = ""
    · subst h
      exact absurd hs (by decide)
    · simpa [populateRemotePreference, jsOrString, h] using hs

/-- C7 witness: the remote preference facts at an absent value and at the
concrete offered value required. -/
theorem c7_remote_preference_witness :
    populateRemotePreference none = "flexible" ∧
    populateRemotePreference (some ("required")) ∈ remotePreferenceValues :=
  ⟨(c7_remote_preference none (fun s hs => Option.noConfusion hs)).2.1,
   (c7_remote_preference (some ("required")) (by
      intro s hs
      simp at hs
      subst hs
      decide)).2.2.2⟩

/-- A single valid checkbox interaction preserves the level set invariant. -/
theorem levelOp_step (s : List String) (op : LevelOp)
    (hinv : levelSetInvariant s) (hop : validLevelOp s op = true) :
    levelSetInvariant (applyLevelOp s op) := by
  obtain ⟨hnd, hsub⟩ := hinv
  cases op with
  | check l =>
    simp only [validLevelOp, Bool.and_eq_true] at hop
    obtain ⟨hl, hns⟩ := hop
    have hlmem : l ∈ jobLevelValues := by simpa using hl
    have hnmem : l ∉ s := by simpa using hns
    constructor
    · simp [applyLevelOp, List.nodup_append, hnd, hnmem]
    · intro x hx
      simp only [applyLevelOp, List.mem_append, List.mem_singleton] at hx
      rcases hx with hx | rfl
      · exact hsub x hx
      · exact hlmem
  | uncheck l =>
    constructor
    · exact hnd.filter _
    · intro x hx
      exact hsub x (List.mem_of_mem_filter hx)

/-- C8: starting from a duplicate-free subset of the six offered levels,
any sequence of checkbox interactions the editor can produce (checking a
level not already present, unchecking any level) leaves the preferred job
levels a duplicate-free subset of the six offered levels. -/
theorem c8_level_ops (s : List String) (ops : List LevelOp)
    (hinv : levelSetInvariant s) (hvalid : validLevelOps s ops = true) :
    levelSetInvariant (applyLevelOps s ops) := by
  induction ops generalizing s with
  | nil => exact hinv
  | cons op rest ih =>
    simp only [validLevelOps, Bool.and_eq_true] at hvalid
    exact ih _ (levelOp_step s op hinv hvalid.1) hvalid.2

/-- C8 witness: a concrete interaction sequence starting from the singleton
entry keeps the invariant, ending in the concrete list mid, senior. -/
theorem c8_level_ops_witness :
    levelSetInvariant (applyLevelOps ["entry"] demoLevelOps) ∧
    applyLevelOps ["entry"] demoLevelOps = ["mid", "senior"] :=
  ⟨c8_level_ops ["entry"] demoLevelOps
      (show levelSetInvariant ["entry"] from ⟨by decide, by decide⟩)
      (by decide),
   by decide⟩
